import Mathlib

/-!
Verification of `cc_scripts/make_model.py` (starships repository).

The module is orchestration glue around an external radiative-transfer
library.  We give a shallow embedding of its four functions:

* `init_model_retrieval`   (source lines 53-116)
* `prepare_abundances`     (source lines 119-145)
* `create_internal_dict`   (source lines 147-164)
* `prepare_model_high_or_low` (source lines 166-236)

Python dictionaries are modelled as association lists with first-match
lookup and in-place update (`pyLookup`, `pySet`); a failed lookup is a
`KeyError`, modelled with `Except PyErr`.  Machine floats are idealised
as `ℚ` for configuration scalars and as `ℝ` for the derived pressure
grid (`np.logspace` needs real exponentiation).  External library
calls (`load_instrum`, `prt.select_mol_list`, `resamp_model`) are
opaque collaborators bundled in an `Ext` record; the opacity-table
constructor `prt.gen_atm_all` returns an opaque handle, modelled as a
fresh creation index threaded through the functions so that distinct
constructions are distinguishable (Python object identity).
-/

/-- Python exceptions observable in this module. -/
inductive PyErr where
  | keyError (key : String)
  | valueError (msg : String)
  | typeError (msg : String)
  deriving Repr, DecidableEq

/-- Python dict lookup `d[k]` as an `Option`: first entry whose key is `k`. -/
def pyLookup {α : Type} : List (String × α) → String → Option α
  | [], _ => none
  | p :: t, k => if p.1 = k then some p.2 else pyLookup t k

/-- Python dict lookup `d[k]`: a missing key raises `KeyError`. -/
def pyGet {α : Type} (d : List (String × α)) (k : String) : Except PyErr α :=
  match pyLookup d k with
  | some v => Except.ok v
  | none => Except.error (PyErr.keyError k)

/-- Python dict item assignment `d[k] = v`: replace the value in place if the
key exists (keeping its position), otherwise append the new pair. -/
def pySet {α : Type} : List (String × α) → String → α → List (String × α)
  | [], k, v => [(k, v)]
  | p :: t, k, v => if p.1 = k then (k, v) :: t else p :: pySet t k v

/-- Python dict construction from a pair sequence (`dict(zip(...))`, dict
comprehensions, literal loops): successive item assignments into `{}`. -/
def pyDictOfPairs {α : Type} (ps : List (String × α)) : List (String × α) :=
  ps.foldl (fun d p => pySet d p.1 p.2) []

/-- Python dict merge `{**a, **b}`: start from `a`, then assign every item of
`b`, so `b`'s values override `a`'s on common keys. -/
def pyMerge {α : Type} (a b : List (String × α)) : List (String × α) :=
  b.foldl (fun d p => pySet d p.1 p.2) a

/-- Value stored under the misspelled configuration key `'intrument'`
(source line 96). -/
structure IntrumentEntry where
  low_res_wv_lim : ℚ × ℚ
  deriving Repr, DecidableEq

/-- Opaque stellar interpolation function: `scipy.interpolate.interp1d` over
the wavelength selection and the resampled flux (source lines 107-112). -/
inductive StarFct where
  | interp1d (wv : List ℚ) (flux : List ℚ)
  deriving Repr, DecidableEq

/-- The configuration mapping (`config_dict`).  One field per key the module
reads or writes; the key `'intrument'` (misspelled) may be absent, hence
`Option`.  `linelist_names` and `fct_star_global` are nested dicts keyed by
the resolution mode string, whose values may be Python `None`. -/
structure Config where
  line_opacities : List String
  opacity_sampling : ℕ
  continuum_opacities : List String
  other_species : List String
  limP : ℚ × ℚ
  n_pts : ℕ
  instrument : String
  intrument : Option IntrumentEntry
  kind_trans : String
  star_wv : Option (List ℚ)
  star_flux : List ℚ
  chemical_equilibrium : Bool
  linelist_names : List (String × Option (List (String × String)))
  mode : String
  atmo_high : Option ℕ
  atmo_low : Option ℕ
  fct_star_global : List (String × Option StarFct)
  T_eq : ℚ
  P0 : ℚ
  p_cloud : ℚ
  gamma_scat : ℚ
  scat_factor : ℚ
  C_to_O : ℚ
  Fe_to_H : ℚ
  dissociation : Bool
  wind : Option ℚ
  R_pl : ℚ
  M_pl : ℚ

/-- The planet object.  Its astropy quantities (`R_pl[0]`, `M_pl`, `R_star`)
are modelled by their numerical values in the cgs unit system, so the astropy
conversions `.to(u.R_jup).cgs.value` and `.to(u.R_sun).cgs.value` of source
lines 160-161 are the identity on these values. -/
structure Planet where
  R_pl : ℝ
  M_pl : ℝ
  R_star : ℝ

/-- Entry of the external instrument database `load_instrum(name)`. -/
structure Instrum where
  resol : ℚ
  high_res_wv_lim : ℚ × ℚ

/-- External collaborators (starships / petitRADTRANS), treated as opaque:
`load_instrum`, `prt.select_mol_list` (returning the line-list keys in order,
i.e. what iterating the returned dict yields), and `resamp_model`. -/
structure ExtLib where
  load_instrum : String → Instrum
  select_mol_list : List String → String → List String
  resamp_model : List ℚ → List ℚ → ℕ → ℚ → ℕ → List ℚ

/-- Embedding of `np.linspace(a, b, n)` with `endpoint=True`, in exact arithmetic:
`a + i * (b - a) / (n - 1)` for `i = 0, ..., n-1` (numpy's explicit
`y[-1] = stop` coincides with the formula exactly). -/
def np_linspace (a b : ℚ) (n : ℕ) : List ℚ :=
  if n = 0 then []
  else if n = 1 then [a]
  else (List.range n).map (fun (i : ℕ) => a + (i : ℚ) * ((b - a) / ((n : ℚ) - 1)))

/-- Embedding of `np.logspace(a, b, n)`: `10 ** np.linspace(a, b, n)` (source lines 79
and 153). -/
noncomputable def np_logspace (a b : ℚ) (n : ℕ) : List ℝ :=
  (np_linspace a b n).map (fun (q : ℚ) => (10 : ℝ) ^ (q : ℝ))

/-- Gravitational constant `astropy.constants.G` in cgs
(`6.6743e-8 cm³ g⁻¹ s⁻²`). -/
noncomputable def G_cgs : ℝ := 66743 / 10 ^ 12

/-- Jupiter radius `astropy.constants.R_jup` in cgs (`7.1492e9 cm`). -/
def R_jup_cgs : ℚ := 71492 * 10 ^ 5

/-- Placeholder abundance `10 ** (-99.0)` (source line 131). -/
def placeholder_abund : ℚ := (10 : ℚ) ^ (-99 : ℤ)

/-- The internal derived dict returned by `create_internal_dict`
(source lines 147-164). -/
structure IntDict where
  pressures : List ℝ
  temperatures : List ℝ
  P0 : ℚ
  p_cloud : ℚ
  R_pl : ℝ
  R_star : ℝ
  gravity : ℝ

/-- Embedding of `create_internal_dict` with the state threaded explicitly: the source
body (lines 147-164) only reads `config_dict` and `planet`, so the embedding
returns both inputs alongside the freshly built snapshot.  Line by line:
pressures from `np.logspace(*limP, n_pts)`; temperatures
`T_eq * np.ones_like(pressures)`; `P0`, `p_cloud` copied from the
configuration; planet and star radii and `G * M_pl / R_pl**2` in cgs. -/
noncomputable def create_internal_dict_st (cfg : Config) (planet : Planet) :
    Config × Planet × IntDict :=
  let limP := cfg.limP
  let n_pts := cfg.n_pts
  let pressures := np_logspace limP.1 limP.2 n_pts
  let temperatures := pressures.map (fun _ => (cfg.T_eq : ℝ))
  let int_dict : IntDict :=
    { pressures := pressures
      temperatures := temperatures
      P0 := cfg.P0
      p_cloud := cfg.p_cloud
      R_pl := planet.R_pl
      R_star := planet.R_star
      gravity := G_cgs * planet.M_pl / planet.R_pl ^ 2 }
  (cfg, planet, int_dict)

/-- Embedding of `create_internal_dict(config_dict, planet)` (source lines 147-164). -/
noncomputable def create_internal_dict (cfg : Config) (planet : Planet) : IntDict :=
  (create_internal_dict_st cfg planet).2.2

/-- Resolution of `ref_linelists` inside `prepare_abundances` (source lines
122-126): with no mode the line-opacity list itself (`.copy()`), otherwise
`[config_dict['linelist_names'][mode][mol] for mol in line_opacities]`,
where subscripting a `None` table is a `TypeError` and a missing key a
`KeyError`. -/
def resolve_ref_linelists (cfg : Config) (mode : Option String) :
    Except PyErr (List String) :=
  match mode with
  | none => Except.ok cfg.line_opacities
  | some m =>
    match pyGet cfg.linelist_names m with
    | Except.error e => Except.error e
    | Except.ok none =>
      Except.error (PyErr.typeError "NoneType object is not subscriptable")
    | Except.ok (some tbl) =>
      cfg.line_opacities.mapM (fun mol => pyGet tbl mol)

/-- The dict comprehension of source lines 134-135:
`{lnlst: theta_dict[mol] for lnlst, mol in zip(ref_linelists, line_opacities)}`
evaluated left to right, raising at the first missing `theta_dict` key. -/
def zipTheta (theta : List (String × ℚ)) :
    List (String × String) → Except PyErr (List (String × ℚ))
  | [] => Except.ok []
  | p :: t =>
    match pyGet theta p.2 with
    | Except.error e => Except.error e
    | Except.ok v =>
      match zipTheta theta t with
      | Except.error e => Except.error e
      | Except.ok rest => Except.ok ((p.1, v) :: rest)

/-- The loops of source lines 138-143: `species[mol] = theta_dict[mol]` for
each listed molecule, in order. -/
def addThetaAll (theta : List (String × ℚ)) :
    List String → List (String × ℚ) → Except PyErr (List (String × ℚ))
  | [], species => Except.ok species
  | mol :: rest, species =>
    match pyGet theta mol with
    | Except.error e => Except.error e
    | Except.ok v => addThetaAll theta rest (pySet species mol v)

/-- Embedding of `prepare_abundances(config_dict, mode, ref_linelists)` (source lines
119-145).  `theta_dict` is populated (with `10**-99.0` per line-opacity
species) only when `chemical_equilibrium` is set; the final mapping merges
the renamed line-opacity species, the continuum species and the other
species, each looked up in `theta_dict`. -/
def prepare_abundances (cfg : Config) (mode : Option String)
    (ref_linelists : Option (List String)) : Except PyErr (List (String × ℚ)) :=
  let refE : Except PyErr (List String) :=
    match ref_linelists with
    | some r => Except.ok r
    | none => resolve_ref_linelists cfg mode
  match refE with
  | Except.error e => Except.error e
  | Except.ok ref =>
    let theta_dict : List (String × ℚ) :=
      if cfg.chemical_equilibrium then
        pyDictOfPairs (cfg.line_opacities.map (fun mol => (mol, placeholder_abund)))
      else []
    match zipTheta theta_dict (ref.zip cfg.line_opacities) with
    | Except.error e => Except.error e
    | Except.ok pairs =>
      match addThetaAll theta_dict cfg.continuum_opacities (pyDictOfPairs pairs) with
      | Except.error e => Except.error e
      | Except.ok species1 =>
        match addThetaAll theta_dict cfg.other_species species1 with
        | Except.error e => Except.error e
        | Except.ok species2 => Except.ok species2

/-- The resolved resolution-mode parameters of `init_model_retrieval`
(source lines 84-98): synthesis mode string, resolving power `Raf`,
`pix_per_elem`, and the wavelength range. -/
structure ResMode where
  mode : String
  Raf : ℚ
  pix_per_elem : ℕ
  wl_range : ℚ × ℚ
  deriving Repr, DecidableEq

/-- The error message of source line 98. -/
def kindResErrMsg (kind_res : String) : String :=
  "`kind_res` = " ++ kind_res ++ " not valid. Choose between high or low"

/-- Source lines 84-98: `'high'` selects line-by-line mode with the
instrument's resolving power and (by default) its high-resolution wavelength
limits; `'low'` selects correlated-k mode with `Raf = 1000` and reads the
default wavelength range from the misspelled key `'intrument'`; anything
else raises the `ValueError` of line 98. -/
def resolve_res_mode (ext : ExtLib) (cfg : Config) (kind_res : String)
    (wl_range : Option (ℚ × ℚ)) : Except PyErr ResMode :=
  if kind_res = "high" then
    let instrum := ext.load_instrum cfg.instrument
    Except.ok { mode := "lbl", Raf := instrum.resol, pix_per_elem := 2,
                wl_range := wl_range.getD instrum.high_res_wv_lim }
  else if kind_res = "low" then
    match wl_range with
    | some w => Except.ok { mode := "c-k", Raf := 1000, pix_per_elem := 1, wl_range := w }
    | none =>
      match cfg.intrument with
      | some ent =>
        Except.ok { mode := "c-k", Raf := 1000, pix_per_elem := 1,
                    wl_range := ent.low_res_wv_lim }
      | none => Except.error (PyErr.keyError "intrument")
  else Except.error (PyErr.valueError (kindResErrMsg kind_res))

/-- Source lines 106-114: for an emission-kind transit with a configured
stellar spectrum, select the wavelengths within the range padded by 0.1,
resample the stellar flux (`resamp_model`, external) and build an
interpolation function; otherwise no stellar function
(`np.ma.masked_invalid` is the identity in this idealisation). -/
def star_fct (ext : ExtLib) (cfg : Config) (res : ResMode) : Option StarFct :=
  if cfg.kind_trans = "emission" then
    match cfg.star_wv with
    | none => none
    | some wv =>
      let lo := res.wl_range.1 - 1 / 10
      let hi := res.wl_range.2 + 1 / 10
      let wv_sel := wv.filter (fun x => decide (lo ≤ x) && decide (x ≤ hi))
      let flux_sel :=
        ((wv.zip cfg.star_flux).filter
          (fun p => decide (lo ≤ p.1) && decide (p.1 ≤ hi))).map Prod.snd
      some (StarFct.interp1d wv_sel
        (ext.resamp_model wv_sel flux_sel 500000 res.Raf res.pix_per_elem))
  else none

/-- Arguments handed to the external opacity-table constructor
`prt.gen_atm_all` (source lines 101-103), recorded as observable output. -/
structure GenAtmArgs where
  species : List String
  pressures : List ℝ
  mode : String
  lbl_opacity_sampling : ℕ
  wl_range : ℚ × ℚ
  continuum_opacities : List String

/-- Result of `init_model_retrieval`: the atmosphere handle (its creation
index), the `species → line-list` name mapping, the optional stellar
function, plus the recorded constructor arguments, the resolved resolution
parameters, and the next fresh handle index. -/
structure InitOut where
  atmo : ℕ
  species_2_lnlst : List (String × String)
  fct_star : Option StarFct
  gen_args : GenAtmArgs
  res : ResMode
  next_fresh : ℕ

/-- Embedding of `init_model_retrieval(config_dict, mol_species, kind_res,
lbl_opacity_sampling, wl_range, continuum_species, pressures)` (source lines
53-116).  Overrides default to the configuration values; the default
pressure grid is `np.logspace(*limP, n_pts)`; `prt.select_mol_list` yields
the line-list keys zipped against the input species names; the resolution
branch may raise; the atmosphere handle is a fresh creation index standing
for the `prt.gen_atm_all` result. -/
noncomputable def init_model_retrieval (ext : ExtLib) (cfg : Config) (fresh : ℕ)
    (mol_species : Option (List String)) (kind_res : String)
    (lbl_opacity_sampling : Option ℕ) (wl_range : Option (ℚ × ℚ))
    (continuum_species : Option (List String)) (pressures : Option (List ℝ)) :
    Except PyErr InitOut :=
  let mol_species := mol_species.getD cfg.line_opacities
  let lbl_opacity_sampling := lbl_opacity_sampling.getD cfg.opacity_sampling
  let continuum_species := continuum_species.getD cfg.continuum_opacities
  let pressures := pressures.getD (np_logspace cfg.limP.1 cfg.limP.2 cfg.n_pts)
  let speciesKeys := ext.select_mol_list mol_species kind_res
  let species_2_lnlst := pyDictOfPairs (mol_species.zip speciesKeys)
  match resolve_res_mode ext cfg kind_res wl_range with
  | Except.error e => Except.error e
  | Except.ok res =>
    Except.ok
      { atmo := fresh
        species_2_lnlst := species_2_lnlst
        fct_star := star_fct ext cfg res
        gen_args :=
          { species := speciesKeys
            pressures := pressures
            mode := res.mode
            lbl_opacity_sampling := lbl_opacity_sampling
            wl_range := res.wl_range
            continuum_opacities := continuum_species }
        res := res
        next_fresh := fresh + 1 }

/-- The module-level globals of `make_model.py` written by
`globals()['atmo_high'] = ...` / `globals()['atmo_low'] = ...`
(source lines 184-187). -/
structure Globals where
  atmo_high : Option ℕ
  atmo_low : Option ℕ
  deriving Repr, DecidableEq

/-- Result of the atmosphere-cache phase of `prepare_model_high_or_low`:
the resolved atmosphere handle, the (possibly mutated) configuration and
module globals, the next fresh handle index, and how many times
`init_model_retrieval` was invoked during the phase. -/
structure CachePhaseOut where
  atmo : ℕ
  cfg : Config
  glob : Globals
  fresh : ℕ
  init_calls : ℕ

/-- Source lines 173-194 of `prepare_model_high_or_low`.  With no explicit
`atmo_obj`, the handle is read from `config_dict['atmo_high']` or
`config_dict['atmo_low']` according to the mode; if that is `None`,
`init_model_retrieval` runs, `config_dict['fct_star_global'][mode]` is
assigned, the new handle is written into the module globals (NOT into
`config_dict`), and the discovered line-list names are stored under
`config_dict['linelist_names'][mode]`, merged as `{**new, **old}` when a
table pre-exists. -/
noncomputable def atmo_cache_phase (ext : ExtLib) (cfg : Config) (glob : Globals)
    (fresh : ℕ) (atmo_obj : Option ℕ) : Except PyErr CachePhaseOut :=
  let mode := cfg.mode
  match atmo_obj with
  | some a => Except.ok { atmo := a, cfg := cfg, glob := glob, fresh := fresh, init_calls := 0 }
  | none =>
    match (if mode = "high" then cfg.atmo_high else cfg.atmo_low) with
    | some a => Except.ok { atmo := a, cfg := cfg, glob := glob, fresh := fresh, init_calls := 0 }
    | none =>
      match init_model_retrieval ext cfg fresh none mode none none none none with
      | Except.error e => Except.error e
      | Except.ok out =>
        let cfg1 := { cfg with
          fct_star_global := pySet cfg.fct_star_global mode out.fct_star }
        let glob1 :=
          if mode = "high" then { glob with atmo_high := some out.atmo }
          else { glob with atmo_low := some out.atmo }
        match pyGet cfg1.linelist_names mode with
        | Except.error e => Except.error e
        | Except.ok prev =>
          let newTbl :=
            match prev with
            | none => out.species_2_lnlst
            | some old => pyMerge out.species_2_lnlst old
          Except.ok
            { atmo := out.atmo
              cfg := { cfg1 with
                linelist_names := pySet cfg1.linelist_names mode (some newTbl) }
              glob := glob1
              fresh := out.next_fresh
              init_calls := 1 }

/-- Source lines 196-197: an absent `fct_star` argument is replaced by
`config_dict['fct_star_global'][mode]` (which may itself be `None`). -/
def resolve_fct_star (cfg : Config) (mode : String) (param : Option StarFct) :
    Except PyErr (Option StarFct) :=
  match param with
  | some f => Except.ok (some f)
  | none => pyGet cfg.fct_star_global mode

/-- The wind-broadening keyword parameters of source lines 219-227. -/
structure RotParams where
  R_pl : ℚ
  M_pl : ℚ
  T_eq : ℚ
  winds : List ℚ
  deriving Repr, DecidableEq

/-- The `rot_kwargs` dict of source lines 219-227 (keys absent in the
no-wind branch are `none`). -/
structure RotKwargs where
  rot_params : Option RotParams
  gauss : Option Bool
  x0 : Option ℚ
  fwhm : Option ℚ
  deriving Repr, DecidableEq

/-- Source lines 219-227: wind-broadening parameters from the configuration
(`R_pl * const.R_jup`, `M_pl`, `T_eq`, `[wind]`, `fwhm = wind * 1e3`) when a
wind speed is configured, otherwise `rot_params = None` alone. -/
def mk_rot_kwargs (cfg : Config) : RotKwargs :=
  match cfg.wind with
  | some w =>
    { rot_params := some { R_pl := cfg.R_pl * R_jup_cgs, M_pl := cfg.M_pl,
                           T_eq := cfg.T_eq, winds := [w] }
      gauss := some true, x0 := some 0, fwhm := some (w * 1000) }
  | none => { rot_params := none, gauss := none, x0 := none, fwhm := none }

/-- Everything `prepare_model_high_or_low` passes to the external synthesis
routine `prt.retrieval_model_plain` (source lines 204-213): the atmosphere
handle, the abundance mapping, the planet, the seven positional physical
arguments, and the keyword radiative/chemical parameters. -/
structure Call where
  atmo_obj : ℕ
  species : List (String × ℚ)
  planet : Planet
  pressures : List ℝ
  temperatures : List ℝ
  gravity : ℝ
  P0 : ℚ
  p_cloud : ℚ
  R_pl : ℝ
  R_star : ℝ
  gamma_scat : ℚ
  kappa_factor : ℚ
  C_to_O : ℚ
  Fe_to_H : ℚ
  specie_2_lnlst : Option (List (String × String))
  kind_trans : String
  dissociation : Bool
  fct_star : Option StarFct

/-- Observable result of `prepare_model_high_or_low`: the synthesis call
record, the high-resolution post-processing parameters handed to the
external `prt.prepare_model` (broadening kwargs, `lbl_res = 1000000`,
`Raf`, `rot_ker`), and the final mutable state (configuration, module
globals, fresh handle counter, number of `init_model_retrieval` calls). -/
structure PrepOut where
  call : Call
  rot_kwargs : Option RotKwargs
  lbl_res : Option ℕ
  Raf : ℚ
  rot_ker : Option Unit
  cfg : Config
  glob : Globals
  fresh : ℕ
  init_calls : ℕ

/-- Embedding of `prepare_model_high_or_low(config_dict, int_dict, planet, atmo_obj,
fct_star, species_dict, Raf, rot_ker)` (source lines 166-236).  `Raf`
defaults to the instrument's resolving power; the atmosphere handle is
resolved (and lazily initialised) by the cache phase; the stellar function
falls back to `config_dict['fct_star_global'][mode]`; abundances come from
`prepare_abundances(config_dict, mode, species_dict)`; the synthesis call is
assembled from the internal dict and configuration, with
`specie_2_lnlst = config_dict['linelist_names'][mode]`; in high-resolution
mode the model is afterwards downgraded/broadened by the external
`prt.prepare_model` with `lbl_res = 1000000` and the wind kwargs. -/
noncomputable def prepare_model_high_or_low (ext : ExtLib) (cfg : Config)
    (glob : Globals) (fresh : ℕ) (int_dict : IntDict) (planet : Planet)
    (atmo_obj : Option ℕ) (fct_star : Option StarFct)
    (species_dict : Option (List String)) (Raf : Option ℚ)
    (rot_ker : Option Unit) : Except PyErr PrepOut :=
  let mode := cfg.mode
  let Raf := Raf.getD (ext.load_instrum cfg.instrument).resol
  match atmo_cache_phase ext cfg glob fresh atmo_obj with
  | Except.error e => Except.error e
  | Except.ok c =>
    match resolve_fct_star c.cfg mode fct_star with
    | Except.error e => Except.error e
    | Except.ok fct_star =>
      match prepare_abundances c.cfg (some mode) species_dict with
      | Except.error e => Except.error e
      | Except.ok species =>
        match pyGet c.cfg.linelist_names mode with
        | Except.error e => Except.error e
        | Except.ok lnlst =>
          let call : Call :=
            { atmo_obj := c.atmo
              species := species
              planet := planet
              pressures := int_dict.pressures
              temperatures := int_dict.temperatures
              gravity := int_dict.gravity
              P0 := int_dict.P0
              p_cloud := int_dict.p_cloud
              R_pl := int_dict.R_pl
              R_star := int_dict.R_star
              gamma_scat := c.cfg.gamma_scat
              kappa_factor := c.cfg.scat_factor
              C_to_O := c.cfg.C_to_O
              Fe_to_H := c.cfg.Fe_to_H
              specie_2_lnlst := lnlst
              kind_trans := c.cfg.kind_trans
              dissociation := c.cfg.dissociation
              fct_star := fct_star }
          Except.ok
            { call := call
              rot_kwargs := if mode = "high" then some (mk_rot_kwargs c.cfg) else none
              lbl_res := if mode = "high" then some 1000000 else none
              Raf := Raf
              rot_ker := rot_ker
              cfg := c.cfg
              glob := c.glob
              fresh := c.fresh
              init_calls := c.init_calls }

/-! ## Concrete fixtures (used by witnesses and counterexamples) -/

/-- A concrete external-library instance: an instrument database answering a
fixed resolving power and wavelength window, a species resolver returning the
input names as line-list keys, and a trivial resampler. -/
def extW : ExtLib :=
  { load_instrum := fun _ => { resol := 70000, high_res_wv_lim := (9/10, 5/2) }
    select_mol_list := fun mols _ => mols
    resamp_model := fun wv _ _ _ _ => wv }

/-- A concrete configuration: two line-opacity species, empty continuum and
other lists, chemical equilibrium on, unpopulated per-mode tables, high
resolution mode, emission transit with no stellar spectrum. -/
def cfgW : Config :=
  { line_opacities := ["H2O", "CO"]
    opacity_sampling := 4
    continuum_opacities := []
    other_species := []
    limP := (-10, 2)
    n_pts := 3
    instrument := "NIRPS-APERO"
    intrument := none
    kind_trans := "emission"
    star_wv := none
    star_flux := []
    chemical_equilibrium := true
    linelist_names := [("high", none), ("low", none)]
    mode := "high"
    atmo_high := none
    atmo_low := none
    fct_star_global := [("high", none), ("low", none)]
    T_eq := 1400
    P0 := 1/10
    p_cloud := 10
    gamma_scat := -4
    scat_factor := 1
    C_to_O := 54/100
    Fe_to_H := 0
    dissociation := false
    wind := none
    R_pl := 6/5
    M_pl := 3/2 }

/-- A concrete planet (cgs values). -/
def planetW : Planet := { R_pl := 2, M_pl := 3, R_star := 5 }

/-- The internal snapshot derived from the concrete fixtures. -/
noncomputable def intDW : IntDict := create_internal_dict cfgW planetW

/-- First call of the Model Builder on the concrete fixtures: fresh handle
counter 0, empty module globals, no overrides. -/
noncomputable def c1_run1 : Except PyErr PrepOut :=
  prepare_model_high_or_low extW cfgW { atmo_high := none, atmo_low := none } 0
    intDW planetW none none none none none

/-- Second call of the Model Builder, continuing from the configuration,
globals and handle counter left by a previous call. -/
noncomputable def c1_step (r : Except PyErr PrepOut) : Except PyErr PrepOut :=
  match r with
  | Except.error e => Except.error e
  | Except.ok o =>
    prepare_model_high_or_low extW o.cfg o.glob o.fresh intDW planetW
      none none none none none

/-! ## Dictionary lemmas -/

theorem pyLookup_pySet {α : Type} (d : List (String × α)) (k x : String) (v : α) :
    pyLookup (pySet d k v) x = if x = k then some v else pyLookup d x := by
  induction d with
  | nil =>
    by_cases h : x = k <;> simp [pySet, pyLookup, h]
    exact fun h2 => absurd h2.symm h
  | cons p t ih =>
    by_cases hp : p.1 = k
    · by_cases hx : x = k
      · simp [pySet, pyLookup, hp, hx]
      · have hkx : ¬k = x := fun h2 => hx h2.symm
        simp [pySet, pyLookup, hp, hx, hkx]
    · by_cases hq : p.1 = x
      · have hxk : ¬x = k := fun h => hp (hq.trans h)
        simp [pySet, pyLookup, hp, hq, hxk]
      · simp [pySet, pyLookup, hp, hq, ih]

theorem pyLookup_eq_none_of_not_mem {α : Type} (d : List (String × α)) (x : String)
    (h : x ∉ d.map Prod.fst) : pyLookup d x = none := by
  induction d with
  | nil => rfl
  | cons p t ih =>
    simp only [List.map_cons, List.mem_cons] at h
    push_neg at h
    have hp : ¬p.1 = x := fun he => h.1 he.symm
    simp [pyLookup, hp, ih h.2]

theorem pyLookup_append {α : Type} (a b : List (String × α)) (x : String) :
    pyLookup (a ++ b) x =
      match pyLookup a x with
      | some v => some v
      | none => pyLookup b x := by
  induction a with
  | nil => rfl
  | cons p t ih =>
    by_cases hp : p.1 = x <;> simp [pyLookup, hp, ih]

theorem pySet_eq_append {α : Type} (d : List (String × α)) (k : String) (v : α)
    (h : pyLookup d k = none) : pySet d k v = d ++ [(k, v)] := by
  induction d with
  | nil => rfl
  | cons p t ih =>
    by_cases hp : p.1 = k
    · simp [pyLookup, hp] at h
    · simp only [pyLookup, hp, if_false] at h
      simp [pySet, hp, ih h]

theorem foldl_pySet_of_disjoint {α : Type} (ps : List (String × α)) :
    ∀ a : List (String × α), (ps.map Prod.fst).Nodup →
    (∀ x ∈ ps.map Prod.fst, pyLookup a x = none) →
    ps.foldl (fun d p => pySet d p.1 p.2) a = a ++ ps := by
  induction ps with
  | nil => intro a _ _; simp
  | cons p t ih =>
    intro a hnd hdisj
    simp only [List.map_cons, List.nodup_cons] at hnd
    have h1 : pyLookup a p.1 = none := hdisj p.1 (by simp)
    have hstep : pySet a p.1 p.2 = a ++ [(p.1, p.2)] := pySet_eq_append a p.1 p.2 h1
    have hdisj' : ∀ x ∈ t.map Prod.fst, pyLookup (a ++ [(p.1, p.2)]) x = none := by
      intro x hx
      have hxa : pyLookup a x = none := hdisj x (by simp [hx])
      have hxp : ¬p.1 = x := fun he => hnd.1 (he ▸ hx)
      rw [pyLookup_append]
      simp [hxa, pyLookup, hxp]
    calc (p :: t).foldl (fun d q => pySet d q.1 q.2) a
        = t.foldl (fun d q => pySet d q.1 q.2) (a ++ [(p.1, p.2)]) := by
          simp [List.foldl_cons, hstep]
      _ = (a ++ [(p.1, p.2)]) ++ t := ih (a ++ [(p.1, p.2)]) hnd.2 hdisj'
      _ = a ++ (p :: t) := by simp

theorem pyDictOfPairs_eq_self {α : Type} (ps : List (String × α))
    (h : (ps.map Prod.fst).Nodup) : pyDictOfPairs ps = ps := by
  have := foldl_pySet_of_disjoint ps [] h (fun x _ => rfl)
  simpa [pyDictOfPairs] using this

theorem pyLookup_foldl_const {α : Type} (c : α) (l : List String) :
    ∀ (a : List (String × α)) (x : String),
    pyLookup ((l.map fun m => (m, c)).foldl (fun d p => pySet d p.1 p.2) a) x =
      if x ∈ l then some c else pyLookup a x := by
  induction l with
  | nil => intro a x; simp
  | cons m t ih =>
    intro a x
    simp only [List.map_cons, List.foldl_cons]
    rw [ih (pySet a m c) x, pyLookup_pySet]
    by_cases hx : x ∈ t
    · simp [hx]
    · by_cases hm : x = m <;> simp [hx, hm]

theorem pyLookup_pyDict_const {α : Type} (c : α) (l : List String) (x : String) :
    pyLookup (pyDictOfPairs (l.map fun m => (m, c))) x =
      if x ∈ l then some c else none := by
  have := pyLookup_foldl_const c l [] x
  simpa [pyDictOfPairs] using this

theorem pyLookup_pyMerge {α : Type} (b : List (String × α)) :
    ∀ (a : List (String × α)) (k : String), (b.map Prod.fst).Nodup →
    pyLookup (pyMerge a b) k =
      match pyLookup b k with
      | some v => some v
      | none => pyLookup a k := by
  induction b with
  | nil => intro a k _; rfl
  | cons p t ih =>
    intro a k hnd
    simp only [List.map_cons, List.nodup_cons] at hnd
    have hstep : pyMerge a (p :: t) = pyMerge (pySet a p.1 p.2) t := by
      simp [pyMerge, List.foldl_cons]
    rw [hstep, ih (pySet a p.1 p.2) k hnd.2]
    by_cases hp : p.1 = k
    · have ht : pyLookup t k = none :=
        pyLookup_eq_none_of_not_mem t k (hp ▸ hnd.1)
      simp [pyLookup, hp, ht, pyLookup_pySet]
    · by_cases htk : ∃ v, pyLookup t k = some v
      · obtain ⟨v, hv⟩ := htk
        simp [pyLookup, hp, hv]
      · push_neg at htk
        have ht : pyLookup t k = none := Option.eq_none_iff_forall_not_mem.mpr
          (fun v hv => htk v hv)
        have hk : ¬k = p.1 := fun he => hp he.symm
        simp [pyLookup, hp, ht, pyLookup_pySet, hk]

theorem zipTheta_const (theta : List (String × ℚ)) (c : ℚ)
    (ps : List (String × String)) (h : ∀ p ∈ ps, pyGet theta p.2 = Except.ok c) :
    zipTheta theta ps = Except.ok (ps.map fun p => (p.1, c)) := by
  induction ps with
  | nil => rfl
  | cons p t ih =>
    have hp := h p (by simp)
    have ht := ih (fun q hq => h q (by simp [hq]))
    simp [zipTheta, hp, ht]

/-! ## Pressure-grid lemmas -/

theorem np_linspace_eq_map (a b : ℚ) (n : ℕ) (h2 : 2 ≤ n) :
    np_linspace a b n =
      (List.range n).map (fun (i : ℕ) => a + (i : ℚ) * ((b - a) / ((n : ℚ) - 1))) := by
  have h0 : ¬n = 0 := by omega
  have h1 : ¬n = 1 := by omega
  simp [np_linspace, h0, h1]

theorem np_logspace_length (a b : ℚ) (n : ℕ) : (np_logspace a b n).length = n := by
  by_cases h0 : n = 0
  · simp [np_logspace, np_linspace, h0]
  by_cases h1 : n = 1
  · simp [np_logspace, np_linspace, h0, h1]
  simp [np_logspace, np_linspace, h0, h1]

theorem np_logspace_pairwise (a b : ℚ) (n : ℕ) (hab : a < b) (h2 : 2 ≤ n) :
    (np_logspace a b n).Pairwise (· < ·) := by
  have hn1 : (0 : ℚ) < (n : ℚ) - 1 := by
    have : (2 : ℚ) ≤ (n : ℚ) := by exact_mod_cast h2
    linarith
  have hstep : 0 < (b - a) / ((n : ℚ) - 1) := div_pos (by linarith) hn1
  rw [np_logspace, np_linspace_eq_map a b n h2, List.map_map, List.pairwise_map]
  refine (List.pairwise_lt_range n).imp ?_
  intro i j hij
  have hq : a + (i : ℚ) * ((b - a) / ((n : ℚ) - 1)) <
      a + (j : ℚ) * ((b - a) / ((n : ℚ) - 1)) := by
    have hij' : (i : ℚ) < (j : ℚ) := by exact_mod_cast hij
    nlinarith
  show (10 : ℝ) ^ ((_ : ℚ) : ℝ) < (10 : ℝ) ^ ((_ : ℚ) : ℝ)
  exact (Real.rpow_lt_rpow_left_iff (by norm_num)).mpr (by exact_mod_cast hq)

theorem np_logspace_head (a b : ℚ) (n : ℕ) (h2 : 2 ≤ n) :
    (np_logspace a b n).head? = some ((10 : ℝ) ^ (a : ℝ)) := by
  obtain ⟨k, rfl⟩ : ∃ k, n = k + 2 := ⟨n - 2, by omega⟩
  rw [np_logspace, np_linspace_eq_map a b (k + 2) h2]
  rw [show k + 2 = (k + 1) + 1 from rfl, List.range_succ_eq_map]
  simp

theorem np_logspace_getLast (a b : ℚ) (n : ℕ) (h2 : 2 ≤ n) :
    (np_logspace a b n).getLast? = some ((10 : ℝ) ^ (b : ℝ)) := by
  obtain ⟨k, rfl⟩ : ∃ k, n = k + 2 := ⟨n - 2, by omega⟩
  rw [np_logspace, np_linspace_eq_map a b (k + 2) h2]
  rw [show k + 2 = (k + 1) + 1 from rfl, List.range_succ]
  have hk1 : ((k : ℚ) + 1) ≠ 0 := by positivity
  have hval : a + ((k + 1 : ℕ) : ℚ) * ((b - a) / (((k + 1 + 1 : ℕ) : ℚ) - 1)) = b := by
    push_cast
    field_simp
  simp only [List.map_append, List.map_cons, List.map_nil]
  rw [List.getLast?_concat]
  rw [hval]

/-! ## Claim theorems -/

/-- C4: For every configuration with pressure bounds `limP = (a, b)` (so
`a < b`) and point count `n_pts = n` (a grid needs `n ≥ 2`), the derived
pressure grid — built identically in `create_internal_dict` and as
`init_model_retrieval`'s default — has length `n`, is strictly
monotonically increasing, and has first element `10 ** a` and last element
`10 ** b`. -/
theorem C4_pressure_grid (cfg : Config) (planet : Planet) (a b : ℚ) (n : ℕ)
    (hl : cfg.limP = (a, b)) (hn : cfg.n_pts = n) (hab : a < b) (h2 : 2 ≤ n) :
    (create_internal_dict cfg planet).pressures.length = n ∧
    (create_internal_dict cfg planet).pressures.Pairwise (· < ·) ∧
    (create_internal_dict cfg planet).pressures.head? = some ((10 : ℝ) ^ (a : ℝ)) ∧
    (create_internal_dict cfg planet).pressures.getLast? = some ((10 : ℝ) ^ (b : ℝ)) ∧
    ∀ (ext : ExtLib) (fresh : ℕ) (ms : Option (List String)) (kind : String)
      (lbl : Option ℕ) (wl : Option (ℚ × ℚ)) (cs : Option (List String)) (out : InitOut),
      init_model_retrieval ext cfg fresh ms kind lbl wl cs none = Except.ok out →
      out.gen_args.pressures = (create_internal_dict cfg planet).pressures := by
  have hp : (create_internal_dict cfg planet).pressures = np_logspace a b n := by
    simp [create_internal_dict, create_internal_dict_st, hl, hn]
  refine ⟨?_, ?_, ?_, ?_, ?_⟩
  · rw [hp, np_logspace_length]
  · rw [hp]; exact np_logspace_pairwise a b n hab h2
  · rw [hp]; exact np_logspace_head a b n h2
  · rw [hp]; exact np_logspace_getLast a b n h2
  · intro ext fresh ms kind lbl wl cs out hout
    rw [hp]
    simp only [init_model_retrieval] at hout
    cases hres : resolve_res_mode ext cfg kind wl with
    | error e => rw [hres] at hout; simp at hout
    | ok res =>
      rw [hres] at hout
      simp only [Except.ok.injEq] at hout
      rw [← hout]
      simp [hl, hn]

/-- Witness for C4 at the concrete fixtures. -/
theorem C4_pressure_grid_witness :
    cfgW.limP = (-10, 2) ∧ cfgW.n_pts = 3 ∧ (-10 : ℚ) < 2 ∧ 2 ≤ 3 ∧
    (create_internal_dict cfgW planetW).pressures.length = 3 ∧
    (create_internal_dict cfgW planetW).pressures.Pairwise (· < ·) :=
  ⟨rfl, rfl, by norm_num, by norm_num,
   (C4_pressure_grid cfgW planetW (-10) 2 3 rfl rfl (by norm_num) (by norm_num)).1,
   (C4_pressure_grid cfgW planetW (-10) 2 3 rfl rfl (by norm_num) (by norm_num)).2.1⟩

/-- C5: The surface gravity computed by `create_internal_dict` equals
`G * M_pl / R_pl**2`, so doubling the planet mass (radius fixed) doubles
the computed gravity, and doubling the planet radius (mass fixed) divides
it by four. -/
theorem C5_gravity_scaling (cfg : Config) (p : Planet) :
    (create_internal_dict cfg p).gravity = G_cgs * p.M_pl / p.R_pl ^ 2 ∧
    (create_internal_dict cfg { p with M_pl := 2 * p.M_pl }).gravity =
      2 * (create_internal_dict cfg p).gravity ∧
    (create_internal_dict cfg { p with R_pl := 2 * p.R_pl }).gravity =
      (create_internal_dict cfg p).gravity / 4 := by
  refine ⟨rfl, ?_, ?_⟩ <;>
    simp only [create_internal_dict, create_internal_dict_st] <;> ring

/-- C8: `create_internal_dict` is side-effect-free: the state-threaded
embedding returns both inputs unchanged, and the value returned is exactly
the freshly constructed snapshot with the seven derived entries
(pressures, temperatures, P0, p_cloud, R_pl, R_star, gravity). -/
theorem C8_pure_snapshot (cfg : Config) (p : Planet) :
    (create_internal_dict_st cfg p).1 = cfg ∧
    (create_internal_dict_st cfg p).2.1 = p ∧
    (create_internal_dict_st cfg p).2.2 = create_internal_dict cfg p ∧
    create_internal_dict cfg p =
      { pressures := np_logspace cfg.limP.1 cfg.limP.2 cfg.n_pts
        temperatures := (np_logspace cfg.limP.1 cfg.limP.2 cfg.n_pts).map
          (fun _ => (cfg.T_eq : ℝ))
        P0 := cfg.P0
        p_cloud := cfg.p_cloud
        R_pl := p.R_pl
        R_star := p.R_star
        gravity := G_cgs * p.M_pl / p.R_pl ^ 2 } :=
  ⟨rfl, rfl, rfl, rfl⟩

/-- C3: `init_model_retrieval` with `kind_res='high'` selects line-by-line
mode (`'lbl'`) and reads the instrument's resolving power and wavelength
limits; with `kind_res='low'` it selects correlated-k mode (`'c-k'`) with
resolving power fixed at 1000; every other value yields the `ValueError`
whose message names the invalid value and the two accepted choices — and a
`ValueError` from `init_model_retrieval` arises only this way. -/
theorem C3_kind_res_dispatch (ext : ExtLib) (cfg : Config) (kind_res : String)
    (wl : Option (ℚ × ℚ)) (fresh : ℕ) (ms : Option (List String))
    (lbl : Option ℕ) (cs : Option (List String)) (ps : Option (List ℝ)) :
    (kind_res = "high" →
      resolve_res_mode ext cfg kind_res wl =
        Except.ok { mode := "lbl", Raf := (ext.load_instrum cfg.instrument).resol,
                    pix_per_elem := 2,
                    wl_range := wl.getD (ext.load_instrum cfg.instrument).high_res_wv_lim }) ∧
    (kind_res = "low" → ∀ r, resolve_res_mode ext cfg kind_res wl = Except.ok r →
      r.mode = "c-k" ∧ r.Raf = 1000) ∧
    (kind_res ≠ "high" → kind_res ≠ "low" →
      resolve_res_mode ext cfg kind_res wl =
        Except.error (PyErr.valueError (kindResErrMsg kind_res))) ∧
    (∀ m, init_model_retrieval ext cfg fresh ms kind_res lbl wl cs ps =
        Except.error (PyErr.valueError m) →
      kind_res ≠ "high" ∧ kind_res ≠ "low" ∧ m = kindResErrMsg kind_res) := by
  refine ⟨?_, ?_, ?_, ?_⟩
  · intro h; subst h
    simp [resolve_res_mode]
  · intro h r hr; subst h
    cases wl with
    | some w =>
      have he : resolve_res_mode ext cfg "low" (some w) =
          Except.ok { mode := "c-k", Raf := 1000, pix_per_elem := 1, wl_range := w } := by
        simp [resolve_res_mode]
      rw [he] at hr
      simp only [Except.ok.injEq] at hr
      rw [← hr]; exact ⟨rfl, rfl⟩
    | none =>
      cases hint : cfg.intrument with
      | some ent =>
        have he : resolve_res_mode ext cfg "low" none =
            Except.ok { mode := "c-k", Raf := 1000, pix_per_elem := 1,
                        wl_range := ent.low_res_wv_lim } := by
          simp [resolve_res_mode, hint]
        rw [he] at hr
        simp only [Except.ok.injEq] at hr
        rw [← hr]; exact ⟨rfl, rfl⟩
      | none =>
        have he : resolve_res_mode ext cfg "low" none =
            Except.error (PyErr.keyError "intrument") := by
          simp [resolve_res_mode, hint]
        rw [he] at hr
        simp at hr
  · intro h1 h2
    simp only [resolve_res_mode]
    rw [if_neg h1, if_neg h2]
  · intro m hm
    have hres : resolve_res_mode ext cfg kind_res wl =
        Except.error (PyErr.valueError m) := by
      simp only [init_model_retrieval] at hm
      cases hres : resolve_res_mode ext cfg kind_res wl with
      | error e =>
        rw [hres] at hm
        simp only [Except.error.injEq] at hm
        rw [hm]
      | ok res => rw [hres] at hm; simp at hm
    by_cases k1 : kind_res = "high"
    · subst k1; simp [resolve_res_mode] at hres
    by_cases k2 : kind_res = "low"
    · subst k2
      cases wl with
      | some w =>
        have he : resolve_res_mode ext cfg "low" (some w) =
            Except.ok { mode := "c-k", Raf := 1000, pix_per_elem := 1, wl_range := w } := by
          simp [resolve_res_mode]
        rw [he] at hres
        simp at hres
      | none =>
        cases hint : cfg.intrument with
        | some ent =>
          have he : resolve_res_mode ext cfg "low" none =
              Except.ok { mode := "c-k", Raf := 1000, pix_per_elem := 1,
                          wl_range := ent.low_res_wv_lim } := by
            simp [resolve_res_mode, hint]
          rw [he] at hres
          simp at hres
        | none =>
          have he : resolve_res_mode ext cfg "low" none =
              Except.error (PyErr.keyError "intrument") := by
            simp [resolve_res_mode, hint]
          rw [he] at hres
          simp at hres
    · refine ⟨k1, k2, ?_⟩
      simp only [resolve_res_mode] at hres
      rw [if_neg k1, if_neg k2] at hres
      simp only [Except.error.injEq, PyErr.valueError.injEq] at hres
      exact hres.symm

/-- Witness for C3 at the concrete fixtures and the invalid kind `'med'`. -/
theorem C3_kind_res_dispatch_witness :
    ("med" : String) ≠ "high" ∧ ("med" : String) ≠ "low" ∧
    resolve_res_mode extW cfgW "med" none =
      Except.error (PyErr.valueError (kindResErrMsg "med")) :=
  ⟨by decide, by decide,
   (C3_kind_res_dispatch extW cfgW "med" none 0 none none none none).2.2.1
     (by decide) (by decide)⟩

/-- C10: With `kind_res='low'` and no wavelength override,
`init_model_retrieval` reads the low-resolution wavelength limits from the
configuration key spelled `'intrument'`: when the key is present its
`low_res_wv_lim` becomes the wavelength range, and a configuration defining
only the correctly spelled `'instrument'` raises `KeyError 'intrument'`, so
no opacity table is constructed. -/
theorem C10_intrument_typo (ext : ExtLib) (cfg : Config) (fresh : ℕ)
    (ms : Option (List String)) (lbl : Option ℕ) (cs : Option (List String))
    (ps : Option (List ℝ)) :
    (cfg.intrument = none →
      init_model_retrieval ext cfg fresh ms "low" lbl none cs ps =
        Except.error (PyErr.keyError "intrument")) ∧
    (∀ ent, cfg.intrument = some ent →
      ∀ out, init_model_retrieval ext cfg fresh ms "low" lbl none cs ps = Except.ok out →
        out.res.wl_range = ent.low_res_wv_lim) := by
  constructor
  · intro h
    have hres : resolve_res_mode ext cfg "low" none =
        Except.error (PyErr.keyError "intrument") := by
      simp [resolve_res_mode, h]
    simp [init_model_retrieval, hres]
  · intro ent h out hout
    have hres : resolve_res_mode ext cfg "low" none =
        Except.ok { mode := "c-k", Raf := 1000, pix_per_elem := 1,
                    wl_range := ent.low_res_wv_lim } := by
      simp [resolve_res_mode, h]
    simp only [init_model_retrieval, hres, Except.ok.injEq] at hout
    rw [← hout]

/-- Witness for C10 at the concrete fixtures (whose `'intrument'` key is
absent). -/
theorem C10_intrument_typo_witness :
    cfgW.intrument = none ∧
    init_model_retrieval extW cfgW 0 none "low" none none none none =
      Except.error (PyErr.keyError "intrument") :=
  ⟨rfl, (C10_intrument_typo extW cfgW 0 none none none none).1 rfl⟩

/-- C2 counterexample: a configuration with pairwise disjoint line-opacity
(`["H2O", "CO"]`), continuum (`["H2"]`) and other (`[]`) lists on which
`prepare_abundances` does not return the union mapping but raises
`KeyError 'H2'` (the continuum species is looked up in the placeholder
dict populated only for line-opacity species). -/
theorem C2_union_counterexample :
    ("H2" ∉ ["H2O", "CO"]) ∧
    prepare_abundances { cfgW with continuum_opacities := ["H2"] } none none =
      Except.error (PyErr.keyError "H2") :=
  ⟨by decide, rfl⟩

/-- C2 (amended): for every configuration whose continuum and other lists
are empty and with chemical equilibrium enabled, whenever the line-list
renaming resolves to `refL` (one identifier per line-opacity species, all
distinct), `prepare_abundances` returns the mapping whose keys are exactly
`refL` in order — no key lost, none duplicated; with a non-empty disjoint
continuum or other list the call instead raises `KeyError` (see the
counterexample). -/
theorem C2_abundance_keys (cfg : Config) (mode : Option String) (refL : List String)
    (href : resolve_ref_linelists cfg mode = Except.ok refL)
    (hlen : refL.length = cfg.line_opacities.length)
    (hnd : refL.Nodup)
    (hcont : cfg.continuum_opacities = [])
    (hoth : cfg.other_species = [])
    (hchem : cfg.chemical_equilibrium = true) :
    prepare_abundances cfg mode none =
      Except.ok ((refL.zip cfg.line_opacities).map fun p => (p.1, placeholder_abund)) ∧
    ((refL.zip cfg.line_opacities).map fun p => (p.1, placeholder_abund)).map
      Prod.fst = refL := by
  have hkeys : ((refL.zip cfg.line_opacities).map fun p => (p.1, placeholder_abund)).map
      Prod.fst = refL := by
    rw [List.map_map]
    have : (Prod.fst ∘ fun p : String × String => (p.1, placeholder_abund)) = Prod.fst := by
      funext p; rfl
    rw [this]
    exact List.map_fst_zip refL cfg.line_opacities (le_of_eq hlen)
  refine ⟨?_, hkeys⟩
  have htheta : ∀ p ∈ refL.zip cfg.line_opacities,
      pyGet (pyDictOfPairs (cfg.line_opacities.map
        (fun mol => (mol, placeholder_abund)))) p.2 = Except.ok placeholder_abund := by
    intro p hp
    have hmem : p.2 ∈ cfg.line_opacities := (List.of_mem_zip hp).2
    simp [pyGet, pyLookup_pyDict_const, hmem]
  have hzip := zipTheta_const
    (pyDictOfPairs (cfg.line_opacities.map (fun mol => (mol, placeholder_abund))))
    placeholder_abund (refL.zip cfg.line_opacities) htheta
  have hpairs : (pyDictOfPairs ((refL.zip cfg.line_opacities).map
      fun p => (p.1, placeholder_abund))) =
      (refL.zip cfg.line_opacities).map fun p => (p.1, placeholder_abund) :=
    pyDictOfPairs_eq_self _ (by rw [hkeys]; exact hnd)
  simp only [prepare_abundances, href, hchem, if_true, hzip, hpairs, hcont, hoth,
    addThetaAll]

/-- Witness for the amended C2 at the concrete fixtures. -/
theorem C2_abundance_keys_witness :
    resolve_ref_linelists cfgW none = Except.ok ["H2O", "CO"] ∧
    cfgW.continuum_opacities = [] ∧ cfgW.other_species = [] ∧
    prepare_abundances cfgW none none =
      Except.ok (((["H2O", "CO"].zip cfgW.line_opacities)).map
        fun p => (p.1, placeholder_abund)) :=
  ⟨rfl, rfl, rfl,
   (C2_abundance_keys cfgW none ["H2O", "CO"] rfl rfl (by decide) rfl rfl rfl).1⟩

/-- C9: For every configuration with `chemical_equilibrium` false and a
non-empty line-opacity list, `prepare_abundances` (with default mode and
renaming arguments) raises `KeyError` on the first line-opacity species:
the placeholder dict is populated only under chemical equilibrium, yet
every listed species is looked up in it unconditionally. -/
theorem C9_keyerror_no_equilibrium (cfg : Config) (mol : String) (rest : List String)
    (hchem : cfg.chemical_equilibrium = false)
    (hline : cfg.line_opacities = mol :: rest) :
    prepare_abundances cfg none none = Except.error (PyErr.keyError mol) := by
  simp [prepare_abundances, resolve_ref_linelists, hchem, hline, zipTheta,
    pyGet, pyLookup]

/-- Witness for C9 at the concrete fixtures with equilibrium off. -/
theorem C9_keyerror_no_equilibrium_witness :
    ({ cfgW with chemical_equilibrium := false } : Config).chemical_equilibrium = false ∧
    ({ cfgW with chemical_equilibrium := false } : Config).line_opacities = ["H2O", "CO"] ∧
    prepare_abundances { cfgW with chemical_equilibrium := false } none none =
      Except.error (PyErr.keyError "H2O") :=
  ⟨rfl, rfl,
   C9_keyerror_no_equilibrium { cfgW with chemical_equilibrium := false } "H2O" ["CO"]
     rfl rfl⟩

theorem init_fct_star_none (ext : ExtLib) (cfg : Config) (fresh : ℕ)
    (ms : Option (List String)) (kind : String) (lbl : Option ℕ)
    (wl : Option (ℚ × ℚ)) (cs : Option (List String)) (ps : Option (List ℝ))
    (out : InitOut) (hkt : cfg.kind_trans = "emission") (hwv : cfg.star_wv = none)
    (hout : init_model_retrieval ext cfg fresh ms kind lbl wl cs ps = Except.ok out) :
    out.fct_star = none := by
  simp only [init_model_retrieval] at hout
  cases hres : resolve_res_mode ext cfg kind wl with
  | error e => rw [hres] at hout; simp at hout
  | ok res =>
    rw [hres] at hout
    simp only [Except.ok.injEq] at hout
    rw [← hout]
    simp [star_fct, hkt, hwv]

theorem init_high_eq (ext : ExtLib) (cfg : Config) (fresh : ℕ)
    (ms : Option (List String)) (lbl : Option ℕ) (wl : Option (ℚ × ℚ))
    (cs : Option (List String)) (ps : Option (List ℝ)) :
    init_model_retrieval ext cfg fresh ms "high" lbl wl cs ps =
      Except.ok
        { atmo := fresh
          species_2_lnlst := pyDictOfPairs ((ms.getD cfg.line_opacities).zip
            (ext.select_mol_list (ms.getD cfg.line_opacities) "high"))
          fct_star := star_fct ext cfg
            { mode := "lbl", Raf := (ext.load_instrum cfg.instrument).resol,
              pix_per_elem := 2,
              wl_range := wl.getD (ext.load_instrum cfg.instrument).high_res_wv_lim }
          gen_args :=
            { species := ext.select_mol_list (ms.getD cfg.line_opacities) "high"
              pressures := ps.getD (np_logspace cfg.limP.1 cfg.limP.2 cfg.n_pts)
              mode := "lbl"
              lbl_opacity_sampling := lbl.getD cfg.opacity_sampling
              wl_range := wl.getD (ext.load_instrum cfg.instrument).high_res_wv_lim
              continuum_opacities := cs.getD cfg.continuum_opacities }
          res := { mode := "lbl", Raf := (ext.load_instrum cfg.instrument).resol,
                   pix_per_elem := 2,
                   wl_range := wl.getD (ext.load_instrum cfg.instrument).high_res_wv_lim }
          next_fresh := fresh + 1 } := by
  have hres : resolve_res_mode ext cfg "high" wl =
      Except.ok { mode := "lbl", Raf := (ext.load_instrum cfg.instrument).resol,
                  pix_per_elem := 2,
                  wl_range := wl.getD (ext.load_instrum cfg.instrument).high_res_wv_lim } := by
    simp [resolve_res_mode]
  simp [init_model_retrieval, hres]

theorem atmo_cache_lazy_ok (ext : ExtLib) (cfg : Config) (glob : Globals)
    (fresh : ℕ) (out0 : InitOut) (prev : Option (List (String × String)))
    (hmode : cfg.mode = "high") (hatmo : cfg.atmo_high = none)
    (hi : init_model_retrieval ext cfg fresh none "high" none none none none =
      Except.ok out0)
    (hp : pyGet cfg.linelist_names "high" = Except.ok prev) :
    atmo_cache_phase ext cfg glob fresh none = Except.ok
      { atmo := out0.atmo
        cfg := { cfg with
          fct_star_global := pySet cfg.fct_star_global "high" out0.fct_star
          linelist_names := pySet cfg.linelist_names "high"
            (some (match prev with
                   | none => out0.species_2_lnlst
                   | some old => pyMerge out0.species_2_lnlst old)) }
        glob := { glob with atmo_high := some out0.atmo }
        fresh := out0.next_fresh
        init_calls := 1 } := by
  simp only [atmo_cache_phase]
  rw [hmode, if_pos rfl, hatmo]
  simp only [hi, hp]
  rw [if_pos trivial]
  cases prev <;> rfl

theorem atmo_cache_lazy_err (ext : ExtLib) (cfg : Config) (glob : Globals)
    (fresh : ℕ) (out0 : InitOut) (e : PyErr)
    (hmode : cfg.mode = "high") (hatmo : cfg.atmo_high = none)
    (hi : init_model_retrieval ext cfg fresh none "high" none none none none =
      Except.ok out0)
    (hp : pyGet cfg.linelist_names "high" = Except.error e) :
    atmo_cache_phase ext cfg glob fresh none = Except.error e := by
  simp only [atmo_cache_phase]
  rw [hmode, if_pos rfl, hatmo]
  simp only [hi, hp]

theorem cache_phase_fct_star (ext : ExtLib) (cfg : Config) (glob : Globals)
    (fresh : ℕ) (c : CachePhaseOut)
    (hmode : cfg.mode = "high") (hatmo : cfg.atmo_high = none)
    (hc : atmo_cache_phase ext cfg glob fresh none = Except.ok c) :
    ∃ out0, init_model_retrieval ext cfg fresh none "high" none none none none =
        Except.ok out0 ∧
      c.cfg.fct_star_global = pySet cfg.fct_star_global "high" out0.fct_star := by
  have hi := init_high_eq ext cfg fresh none none none none none
  cases hpg : pyGet cfg.linelist_names "high" with
  | error e =>
    rw [atmo_cache_lazy_err ext cfg glob fresh _ e hmode hatmo hi hpg] at hc
    exact absurd hc (by simp)
  | ok prev =>
    rw [atmo_cache_lazy_ok ext cfg glob fresh _ prev hmode hatmo hi hpg] at hc
    refine ⟨_, hi, ?_⟩
    have hce := (Except.ok.injEq _ _).mp hc
    rw [← hce]

/-- C7: When the configuration's transit kind is `'emission'` but no stellar
spectrum is configured (`star_wv` is `None`), `init_model_retrieval` returns
`None` for the stellar interpolation function, and — on the Model Builder's
lazy-initialisation path with no explicit stellar override — the downstream
spectrum-synthesis call receives `fct_star = None`. -/
theorem C7_no_star_fct :
    (∀ (ext : ExtLib) (cfg : Config) (fresh : ℕ) (ms : Option (List String))
      (kind : String) (lbl : Option ℕ) (wl : Option (ℚ × ℚ))
      (cs : Option (List String)) (ps : Option (List ℝ)) (out : InitOut),
      cfg.kind_trans = "emission" → cfg.star_wv = none →
      init_model_retrieval ext cfg fresh ms kind lbl wl cs ps = Except.ok out →
      out.fct_star = none) ∧
    (∀ (ext : ExtLib) (cfg : Config) (glob : Globals) (fresh : ℕ)
      (int_dict : IntDict) (planet : Planet) (sd : Option (List String))
      (Raf : Option ℚ) (rk : Option Unit) (out : PrepOut),
      cfg.kind_trans = "emission" → cfg.star_wv = none →
      cfg.mode = "high" → cfg.atmo_high = none →
      prepare_model_high_or_low ext cfg glob fresh int_dict planet none none sd Raf rk =
        Except.ok out →
      out.call.fct_star = none) := by
  constructor
  · intro ext cfg fresh ms kind lbl wl cs ps out hkt hwv hout
    exact init_fct_star_none ext cfg fresh ms kind lbl wl cs ps out hkt hwv hout
  · intro ext cfg glob fresh int_dict planet sd Raf rk out hkt hwv hmode hatmo h
    simp only [prepare_model_high_or_low] at h
    rw [hmode] at h
    split at h
    · simp at h
    · rename_i c hc
      obtain ⟨out0, hi, hfsg⟩ := cache_phase_fct_star ext cfg glob fresh c hmode hatmo hc
      have h0 : out0.fct_star = none :=
        init_fct_star_none ext cfg fresh none "high" none none none none out0 hkt hwv hi
      have hrf : resolve_fct_star c.cfg "high" none = Except.ok none := by
        simp only [resolve_fct_star, pyGet]
        rw [hfsg, h0, pyLookup_pySet]
        simp
      split at h
      · simp at h
      · rename_i fs hf
        have hfs : fs = none := by
          have h2 := hf.symm.trans hrf
          exact (Except.ok.injEq _ _).mp h2
        subst hfs
        split at h
        · simp at h
        · rename_i species ha
          split at h
          · simp at h
          · rename_i lnlst hl
            simp only [Except.ok.injEq] at h
            rw [← h]

/-- Witness for C7 at the concrete fixtures (emission transit, no stellar
spectrum, high mode, unpopulated cache). -/
theorem C7_no_star_fct_witness :
    ∃ out, prepare_model_high_or_low extW cfgW { atmo_high := none, atmo_low := none } 0
        intDW planetW none none none none none = Except.ok out ∧
      out.call.fct_star = none :=
  ⟨_, rfl,
   C7_no_star_fct.2 extW cfgW { atmo_high := none, atmo_low := none } 0 intDW planetW
     none none none _ rfl rfl rfl rfl rfl⟩

/-- C6: When the Model Builder performs lazy initialization and the per-mode
`linelist_names` table is already populated, the newly discovered names are
merged in as `{**new, **old}`: every key already present keeps its
pre-existing value, and keys present only in the newly discovered mapping
are added. -/
theorem C6_merge_preserves (ext : ExtLib) (cfg : Config) (glob : Globals)
    (fresh : ℕ) (old : List (String × String))
    (hmode : cfg.mode = "high") (hatmo : cfg.atmo_high = none)
    (hold : pyLookup cfg.linelist_names "high" = some (some old))
    (hnd : (old.map Prod.fst).Nodup) :
    ∃ c, atmo_cache_phase ext cfg glob fresh none = Except.ok c ∧
      c.init_calls = 1 ∧
      pyLookup c.cfg.linelist_names "high" =
        some (some (pyMerge (pyDictOfPairs (cfg.line_opacities.zip
          (ext.select_mol_list cfg.line_opacities "high"))) old)) ∧
      (∀ k v, pyLookup old k = some v →
        pyLookup (pyMerge (pyDictOfPairs (cfg.line_opacities.zip
          (ext.select_mol_list cfg.line_opacities "high"))) old) k = some v) ∧
      (∀ k, pyLookup old k = none →
        pyLookup (pyMerge (pyDictOfPairs (cfg.line_opacities.zip
          (ext.select_mol_list cfg.line_opacities "high"))) old) k =
          pyLookup (pyDictOfPairs (cfg.line_opacities.zip
            (ext.select_mol_list cfg.line_opacities "high"))) k) := by
  have hi := init_high_eq ext cfg fresh none none none none none
  have hp : pyGet cfg.linelist_names "high" = Except.ok (some old) := by
    simp [pyGet, hold]
  have hacp := atmo_cache_lazy_ok ext cfg glob fresh _ (some old) hmode hatmo hi hp
  refine ⟨_, hacp, rfl, ?_, ?_, ?_⟩
  · simp [pyLookup_pySet]
  · intro k v hkv
    rw [pyLookup_pyMerge old _ k hnd]
    simp [hkv]
  · intro k hk
    rw [pyLookup_pyMerge old _ k hnd]
    simp [hk]

/-- Witness for C6: on the concrete fixtures with a pre-populated table
mapping CO to a custom line list, the merged table keeps that entry. -/
theorem C6_merge_preserves_witness :
    pyLookup (pyMerge (pyDictOfPairs (["H2O", "CO"].zip
      (extW.select_mol_list ["H2O", "CO"] "high"))) [("CO", "CO_hitemp")]) "CO" =
      some "CO_hitemp" := by
  obtain ⟨c, hc, hcalls, hlook, hkeep, hnew⟩ :=
    C6_merge_preserves extW
      { cfgW with linelist_names := [("high", some [("CO", "CO_hitemp")]), ("low", none)] }
      { atmo_high := none, atmo_low := none } 0 [("CO", "CO_hitemp")] rfl rfl rfl
      (by decide)
  exact hkeep "CO" "CO_hitemp" rfl

/-- C1: the caching claim fails on the code.  On the concrete fixtures
(mode `'high'`, `config_dict['atmo_high'] = None`), the first Model Builder
call initialises (one `init_model_retrieval` invocation, handle 0) but
stores the handle only in the module globals — `config_dict['atmo_high']`
stays `None` — so the second call initialises again (another invocation,
fresh handle 1) instead of reusing the cached handle. -/
theorem C1_cache_bug :
    Except.map (fun o => (o.init_calls, o.call.atmo_obj, o.cfg.atmo_high, o.glob.atmo_high))
      c1_run1 = Except.ok (1, 0, none, some 0) ∧
    Except.map (fun o => (o.init_calls, o.call.atmo_obj)) (c1_step c1_run1) =
      Except.ok (1, 1) :=
  ⟨rfl, rfl⟩
